import Mathlib

/-!
Shallow embedding of `pyTibberHueTempCommander.py`: a thermostat controller
driven by temperature and hourly electricity prices.  Prices, temperatures
and instants are modelled as rationals; instants are seconds since a local
midnight-aligned origin, so the `datetime.hour` field becomes
`⌊t / 3600⌋ % 24`.
-/

namespace PyTempCmdr

/-! ## Definitions -/

/-- Process-wide configuration constants (module-level globals in the source). -/
structure Config where
  minTemperatureThreshold : ℚ
  maxTemperatureThreshold : ℚ
  normalMinTemperatureThreshold : ℚ
  normalMaxTemperatureThreshold : ℚ
  lowEnergyPricePercentileThreshold : ℚ
  highEnergyPricePercentileThreshold : ℚ
  radiatorPower : ℚ

/-- The concrete values assigned to the globals in the source. -/
def sourceConfig : Config :=
  { minTemperatureThreshold := 2
    maxTemperatureThreshold := 10
    normalMinTemperatureThreshold := 4
    normalMaxTemperatureThreshold := 7
    lowEnergyPricePercentileThreshold := 15
    highEnergyPricePercentileThreshold := 70
    radiatorPower := 1250 }

/-- Source function `estimateCost(seconds, price)`:
`seconds / 3600 * radiatorPower / 1000 * price`. -/
def estimateCost (cfg : Config) (seconds price : ℚ) : ℚ :=
  seconds / 3600 * cfg.radiatorPower / 1000 * price

/-- The if/elif decision ladder of the main loop (source lines 245-271),
as a pure function.  `true` = power ON directive, `false` = power OFF. -/
def decideDirective (cfg : Config) (temp currentPrice nextPrice lowPct highPct : ℚ) : Bool :=
  if temp < cfg.minTemperatureThreshold then true
  else if temp > cfg.maxTemperatureThreshold then false
  else if currentPrice < lowPct then true
  else if currentPrice > highPct then false
  else if temp < cfg.normalMinTemperatureThreshold then true
  else if temp > cfg.normalMaxTemperatureThreshold then false
  else if currentPrice < nextPrice then true
  else if currentPrice > nextPrice then false
  else false

/-- The rationale of the decision: the 1-based number of the branch of the
if/elif ladder that fires (9 = the final `else`).  Each branch of the source
logs a distinct message; this function records which one. -/
def decideRationale (cfg : Config) (temp currentPrice nextPrice lowPct highPct : ℚ) : ℕ :=
  if temp < cfg.minTemperatureThreshold then 1
  else if temp > cfg.maxTemperatureThreshold then 2
  else if currentPrice < lowPct then 3
  else if currentPrice > highPct then 4
  else if temp < cfg.normalMinTemperatureThreshold then 5
  else if temp > cfg.normalMaxTemperatureThreshold then 6
  else if currentPrice < nextPrice then 7
  else if currentPrice > nextPrice then 8
  else 9

/-- Spec-side rule list (§4.2 of the spec): the eight guard conditions of
rules 1-8, in priority order. -/
def ruleConds (cfg : Config) (temp currentPrice nextPrice lowPct highPct : ℚ) : List Bool :=
  [ decide (temp < cfg.minTemperatureThreshold)
  , decide (temp > cfg.maxTemperatureThreshold)
  , decide (currentPrice < lowPct)
  , decide (currentPrice > highPct)
  , decide (temp < cfg.normalMinTemperatureThreshold)
  , decide (temp > cfg.normalMaxTemperatureThreshold)
  , decide (currentPrice < nextPrice)
  , decide (currentPrice > nextPrice) ]

/-- Spec-side outcomes of rules 1-8, in priority order (ON, OFF alternating). -/
def ruleOutcomes : List Bool := [true, false, true, false, true, false, true, false]

/-- First-match evaluation of an ordered (condition, outcome) rule list,
with a default outcome when no rule fires. -/
def firstMatch : List (Bool × Bool) → Bool → Bool
  | [], d => d
  | (c, o) :: rest, d => if c then o else firstMatch rest d

/-- 1-based index of the first `true` in a condition list; one past the end
when none is `true` (the default rule). -/
def firstTrueIndex : ℕ → List Bool → ℕ
  | k, [] => k
  | k, c :: rest => if c then k else firstTrueIndex (k + 1) rest

/-- Spec-side decision function: first-match over the §4.2 rule list with
OFF as the default. -/
def decideSpec (cfg : Config) (temp currentPrice nextPrice lowPct highPct : ℚ) : Bool :=
  firstMatch ((ruleConds cfg temp currentPrice nextPrice lowPct highPct).zip ruleOutcomes) false

/-- The price-table state of the main loop: `currentEnergyPrices` (row 0 =
today, row 1 = tomorrow), `priceState` (0 = never fetched / daylight
savings, 1 = today only, 2 = today and tomorrow) and the calendar date of
`lastPriceRun` (modelled as an integer day ordinal). -/
@[ext]
structure PriceTable where
  today : Fin 24 → ℚ
  tomorrow : Fin 24 → ℚ
  priceState : ℕ
  lastPriceRunDate : ℤ

/-- The table as created at startup: both rows zero, `priceState = 0`,
`lastPriceRun` at the epoch (date ordinal 0). -/
def initialPriceTable : PriceTable :=
  { today := fun _ => 0
    tomorrow := fun _ => 0
    priceState := 0
    lastPriceRunDate := 0 }

/-- The midnight rotation of the main loop (source lines 228-232): when
`priceState == 2` and the current date is later than the last fetch date,
copy tomorrow's prices into today's row, zero the tomorrow row and set
`priceState = 1`. -/
def rotateIfNeeded (pt : PriceTable) (currentDate : ℤ) : PriceTable :=
  if pt.priceState = 2 ∧ pt.lastPriceRunDate < currentDate then
    { pt with
      today := pt.tomorrow
      tomorrow := fun _ => 0
      priceState := 1 }
  else pt

/-- Lookup of `currentEnergyPrice`: today's price at the given hour. -/
def priceAt (pt : PriceTable) (hour : Fin 24) : ℚ := pt.today hour

/-- Lookup of `nextEnergyPrice` (source lines 237-241): at hour 23 it reads
`tomorrow[0]`, otherwise `today[hour+1]`. -/
def nextHourPrice (pt : PriceTable) (hour : Fin 24) : ℚ :=
  if hlast : hour.val = 23 then pt.tomorrow 0
  else pt.today ⟨hour.val + 1, by omega⟩

/-- Invariant maintained by the loop: whenever the table is not in state 2
(TODAY_AND_TOMORROW), the tomorrow row is all zeros — it starts zeroed, the
rotation zeroes it when leaving state 2, and ingestion sets state 2 as soon
as it writes a tomorrow slot. -/
def tomorrowZeroed (pt : PriceTable) : Prop :=
  pt.priceState ≠ 2 → ∀ h : Fin 24, pt.tomorrow h = 0

/-- Sample table in state 2 used to witness the rotation claim. -/
def rotationSample : PriceTable :=
  { today := fun _ => 3
    tomorrow := fun i => (i : ℚ)
    priceState := 2
    lastPriceRunDate := 0 }

/-- Sample table in state 2 with a nonzero tomorrow row, witnessing the
day-boundary lookup claim. -/
def boundarySample : PriceTable :=
  { today := fun i => (i : ℚ) + 1
    tomorrow := fun i => (i : ℚ) + 100
    priceState := 2
    lastPriceRunDate := 0 }

/-- One element of a price day after per-entry validation: `none` models an
entry whose shape/type checks fail (skipped with a diagnostic), `some (p, h)`
a valid `{total, startsAt}` pair giving price `p` for start hour `h`. -/
abbrev DayEntries := List (Option (ℚ × Fin 24))

/-- The `today` / `tomorrow` field of the fetched price info: either not a
Python list at all, or a list of entries. -/
inductive PriceDay where
  | notList : PriceDay
  | list : DayEntries → PriceDay
deriving DecidableEq

/-- Outcome of the today/tomorrow length-validation elif chain
(source lines 282-300). -/
inductive IngestOutcome where
  | ingestBoth : DayEntries → DayEntries → IngestOutcome
  | ingestTodayOnly : DayEntries → IngestOutcome
  | daylightSavings : IngestOutcome
  | parseFailure : IngestOutcome
deriving DecidableEq

/-- The length-validation elif chain of the fetch block, in source order:
`thisObjects = [today, tomorrow]` / `[today]`, `daylightSavingsState = True`,
or the final `else` (log and `continue`). -/
def classifyDays : PriceDay → PriceDay → IngestOutcome
  | .list t, .list u =>
    if t.length = 24 ∧ u.length = 24 then .ingestBoth t u
    else if t.length = 24 ∧ u.length = 23 then .ingestTodayOnly t
    else if t.length = 24 ∧ u.length = 25 then .ingestTodayOnly t
    else if t.length = 23 ∧ u.length = 24 then .daylightSavings
    else if t.length = 25 ∧ u.length = 24 then .daylightSavings
    else if t.length = 24 then .ingestTodayOnly t
    else if t.length = 23 then .daylightSavings
    else if t.length = 25 then .daylightSavings
    else .parseFailure
  | .list t, .notList =>
    if t.length = 24 then .ingestTodayOnly t
    else if t.length = 23 then .daylightSavings
    else if t.length = 25 then .daylightSavings
    else .parseFailure
  | .notList, _ => .parseFailure

/-- One step of the population loop: a valid entry writes its price into
the slot keyed by its start hour and marks the array populated; a malformed
entry is skipped with a diagnostic. -/
def populateStep (acc : (Fin 24 → ℚ) × Bool) (e : Option (ℚ × Fin 24)) :
    (Fin 24 → ℚ) × Bool :=
  match e with
  | none => acc
  | some pe => (Function.update acc.1 pe.2 pe.1, true)

/-- The inner population loop over one day's entries. -/
def populateDay (row : Fin 24 → ℚ) (entries : DayEntries) : (Fin 24 → ℚ) × Bool :=
  entries.foldl populateStep (row, false)

/-- The population loop over `thisObjects` (one or two days): writes today's
row (index 0) and, when present, tomorrow's row (index 1); whenever a day
contributed at least one valid entry, `priceState` becomes that day's
index + 1 and `lastPriceRun` the current time. -/
def ingestDays (pt : PriceTable) (now : ℤ) (t : DayEntries) (u : Option DayEntries) :
    PriceTable :=
  let p0 := populateDay pt.today t
  let pt1 : PriceTable :=
    { pt with
      today := p0.1
      priceState := if p0.2 then 1 else pt.priceState
      lastPriceRunDate := if p0.2 then now else pt.lastPriceRunDate }
  match u with
  | none => pt1
  | some us =>
    let p1 := populateDay pt1.tomorrow us
    { pt1 with
      tomorrow := p1.1
      priceState := if p1.2 then 2 else pt1.priceState
      lastPriceRunDate := if p1.2 then now else pt1.lastPriceRunDate }

/-- Result of one pass through the fetch block: the table afterwards, the
seconds slept inside the block (600 on the daylight-savings backoff, else 0)
and whether the known-unsupported daylight-savings scenario was logged. -/
structure FetchResult where
  table : PriceTable
  backoffSleep : ℕ
  dstLogged : Bool

/-- One pass through the fetch block (source lines 277-328) on an
already-shape-validated `priceInfo`: classify the day lengths, then either
populate the rows, reset `priceState` to 0 with a 600 s backoff (daylight
savings), or skip the iteration (parse failure). -/
def processPriceInfo (pt : PriceTable) (now : ℤ) (today tomorrow : PriceDay) :
    FetchResult :=
  match classifyDays today tomorrow with
  | .ingestBoth t u => ⟨ingestDays pt now t (some u), 0, false⟩
  | .ingestTodayOnly t => ⟨ingestDays pt now t none, 0, false⟩
  | .daylightSavings => ⟨{ pt with priceState := 0 }, 600, true⟩
  | .parseFailure => ⟨pt, 0, false⟩

/-- A sample day of `n` entries, all valid (for `n ≤ 24`), pricing hour `k`
at `p`; used to build concrete ingestion inputs. -/
def dayOfLen (n : ℕ) (p : ℚ) : DayEntries :=
  (List.range n).map (fun k => if hk : k < 24 then some (p, ⟨k, hk⟩) else none)

/-- A sample table holding earlier prices (all 5) in state 1. -/
def staleTable : PriceTable :=
  { today := fun _ => 5
    tomorrow := fun _ => 0
    priceState := 1
    lastPriceRunDate := 0 }

/-- The `datetime.hour` field of an instant `t` modelled as seconds since a
local midnight-aligned origin: `⌊t / 3600⌋ % 24`. -/
def hourOf (t : ℚ) : ℤ := (t / 3600).floor % 24

/-- Source line 157, `datetime(offTime.year, offTime.month, offTime.day,
offTime.hour, 0, 0)`: the instant truncated down to its hour boundary. -/
def floorToHourStart (t : ℚ) : ℚ := ((t / 3600).floor : ℚ) * 3600

/-- Model of `datetime.fromtimestamp(0)`: the "not yet set" sentinel instant. -/
def sentinel : ℚ := 0

/-- The power-off cost computation of `ensurePowerState` (source lines
152-165): 0 at the sentinel; same hour field → elapsed at the off price;
hour field difference +1 or −23 → split at the off instant's hour boundary,
first part at the on price, second at the off price; otherwise the full
elapsed duration at the mean of the two prices. -/
def sessionCostAtOff (cfg : Config)
    (powerOnTime powerOffTime powerOnPrice powerOffPrice : ℚ) : ℚ :=
  if powerOnTime ≠ sentinel then
    if hourOf powerOnTime = hourOf powerOffTime then
      estimateCost cfg (powerOffTime - powerOnTime) powerOffPrice
    else if hourOf powerOffTime - hourOf powerOnTime = 1
        ∨ hourOf powerOffTime - hourOf powerOnTime = -23 then
      estimateCost cfg (floorToHourStart powerOffTime - powerOnTime) powerOnPrice
        + estimateCost cfg (powerOffTime - floorToHourStart powerOffTime) powerOffPrice
    else
      estimateCost cfg (powerOffTime - powerOnTime) ((powerOffPrice + powerOnPrice) / 2)
  else 0

/-- The single mutable `PowerSession` object of the source. -/
@[ext]
structure PowerSession where
  powerOnTime : ℚ
  powerOffTime : ℚ
  powerOnPrice : ℚ
  powerOffPrice : ℚ
  startTemp : ℚ
  endTemp : ℚ
deriving DecidableEq

/-- Observable outcome of one `ensurePowerState` call: the session object
afterwards, whether an actuator write (`set_light`) was issued, and the cost
report logged on a power-off transition (if any). -/
structure ActuatorEffect where
  session : PowerSession
  wroteActuator : Bool
  costReport : Option ℚ
deriving DecidableEq

/-- Model of `ensurePowerState` (source lines 126-167) given the actuator's
last-known power state: a no-op unless the requested state differs; on a
transition to ON it records the on-time/price/temperature; on a transition
to OFF it records the off-side fields and, when the on-time is not the
sentinel, logs the estimated session cost. -/
def ensurePowerState (cfg : Config) (currentPowerState state : Bool)
    (s : PowerSession) (currentEnergyPrice currentTemperature now : ℚ) :
    ActuatorEffect :=
  if currentPowerState ≠ state then
    if state then
      ⟨{ s with
          powerOnTime := now
          powerOnPrice := currentEnergyPrice
          startTemp := currentTemperature }, true, none⟩
    else
      let s2 : PowerSession :=
        { s with
          powerOffTime := now
          powerOffPrice := currentEnergyPrice
          endTemp := currentTemperature }
      ⟨s2, true,
        if s2.powerOnTime ≠ sentinel then
          some (sessionCostAtOff cfg s2.powerOnTime s2.powerOffTime
            s2.powerOnPrice s2.powerOffPrice)
        else none⟩
  else ⟨s, false, none⟩

/-- Model of `numpy.percentile(a, p)` with the default linear-interpolation
method: sort the values, take the fractional rank `r = p/100 · (n−1)` and
linearly interpolate between the entries at `⌊r⌋` and `⌊r⌋+1`. -/
def numpyPercentile (l : List ℚ) (p : ℚ) : ℚ :=
  let s := l.insertionSort (· ≤ ·)
  if s.length = 0 then 0
  else
    let r : ℚ := p / 100 * ((s.length : ℚ) - 1)
    let vlo := s.getD r.floor.toNat 0
    let vhi := s.getD (r.floor.toNat + 1) 0
    vlo + (r - (r.floor : ℚ)) * (vhi - vlo)

/-- Today's row as the Python list `currentEnergyPrices[0]`. -/
def todayRowList (pt : PriceTable) : List ℚ := (List.finRange 24).map pt.today

/-- The decision inputs exactly as the main loop computes them each
iteration (source lines 237-271): current price, next-hour price and the
two percentiles of today's row feed the decision ladder. -/
def evalDirective (cfg : Config) (pt : PriceTable) (temp : ℚ) (hour : Fin 24) : Bool :=
  decideDirective cfg temp (priceAt pt hour) (nextHourPrice pt hour)
    (numpyPercentile (todayRowList pt) cfg.lowEnergyPricePercentileThreshold)
    (numpyPercentile (todayRowList pt) cfg.highEnergyPricePercentileThreshold)

/-- One iteration of the main loop in source order: midnight rotation,
fetch-trigger computation, then the decision ladder and directive, and only
afterwards the price-fetch block (when triggered). -/
def loopIteration (cfg : Config) (pt : PriceTable) (temp : ℚ) (currentDate : ℤ)
    (currentHour : Fin 24) (today tomorrow : PriceDay) : Bool × FetchResult :=
  let pt1 := rotateIfNeeded pt currentDate
  let fetchNew := pt1.priceState = 0 ∨ (pt1.priceState = 1 ∧ 13 ≤ currentHour.val)
  (evalDirective cfg pt1 temp currentHour,
    if fetchNew then processPriceInfo pt1 currentDate today tomorrow
    else ⟨pt1, 0, false⟩)

/-! ## Theorems -/

/-- C1: the decision ladder is a strict first-match priority chain over the
nine rules of §4.2, returning a Bool (ON/OFF); the fired rationale is the
first true condition's index (9 = default OFF); all comparisons are strict,
so `temp = minTemp` cannot fire rule 1, `temp = maxTemp` cannot fire rule 2,
and equal current/next price cannot fire rules 7 or 8 (it falls through to
the default OFF when no earlier rule fires). -/
theorem decision_ladder_is_first_match (cfg : Config)
    (temp currentPrice nextPrice lowPct highPct : ℚ) :
    decideDirective cfg temp currentPrice nextPrice lowPct highPct
      = decideSpec cfg temp currentPrice nextPrice lowPct highPct
    ∧ decideRationale cfg temp currentPrice nextPrice lowPct highPct
      = firstTrueIndex 1 (ruleConds cfg temp currentPrice nextPrice lowPct highPct)
    ∧ (temp = cfg.minTemperatureThreshold →
        decideRationale cfg temp currentPrice nextPrice lowPct highPct ≠ 1)
    ∧ (temp = cfg.maxTemperatureThreshold →
        decideRationale cfg temp currentPrice nextPrice lowPct highPct ≠ 2)
    ∧ (currentPrice = nextPrice →
        decideRationale cfg temp currentPrice nextPrice lowPct highPct ≠ 7
        ∧ decideRationale cfg temp currentPrice nextPrice lowPct highPct ≠ 8
        ∧ (decideRationale cfg temp currentPrice nextPrice lowPct highPct = 9 →
            decideDirective cfg temp currentPrice nextPrice lowPct highPct = false)) := by
  refine ⟨?_, ?_, ?_, ?_, ?_⟩
  · unfold decideSpec ruleConds ruleOutcomes
    simp only [List.zip_cons_cons, List.zip_nil_left, firstMatch, decide_eq_true_eq]
    unfold decideDirective
    split_ifs <;> rfl
  · unfold decideRationale ruleConds
    simp only [firstTrueIndex, decide_eq_true_eq]
  · intro h
    subst h
    unfold decideRationale
    split_ifs <;> simp_all
  · intro h
    subst h
    unfold decideRationale
    split_ifs <;> simp_all
  · intro h
    subst h
    unfold decideRationale decideDirective
    simp only [gt_iff_lt, lt_self_iff_false, if_false]
    refine ⟨?_, ?_, ?_⟩ <;> split_ifs <;> decide

/-- Witness for C1 at concrete inputs: at `temp = minTemp = 2` rule 1 does
not fire, at `temp = maxTemp = 10` rule 2 does not fire, and with equal
current/next prices in the comfort band the default (rule 9, OFF) fires. -/
theorem decision_ladder_is_first_match_witness :
    decideRationale sourceConfig 2 5 5 1 9 ≠ 1
    ∧ decideRationale sourceConfig 10 5 5 1 9 ≠ 2
    ∧ decideRationale sourceConfig 5 5 5 1 9 ≠ 7 :=
  ⟨(decision_ladder_is_first_match sourceConfig 2 5 5 1 9).2.2.1 rfl,
   (decision_ladder_is_first_match sourceConfig 10 5 5 1 9).2.2.2.1 rfl,
   ((decision_ladder_is_first_match sourceConfig 5 5 5 1 9).2.2.2.2 rfl).1⟩

theorem tomorrowZeroed_initial : tomorrowZeroed initialPriceTable :=
  fun _ _ => rfl

theorem tomorrowZeroed_rotate (pt : PriceTable) (d : ℤ) (h : tomorrowZeroed pt) :
    tomorrowZeroed (rotateIfNeeded pt d) := by
  unfold rotateIfNeeded
  split_ifs with hc
  · intro _ _; rfl
  · exact h

/-- C4: from state 2 (today `T`, tomorrow `U`), rotating on a strictly later
calendar date yields today = `U`, tomorrow = 24 zeros, state 1; rotating the
result again (on any date before the table re-enters state 2) is a no-op. -/
theorem rotation_shifts_then_noop (pt : PriceTable) (d : ℤ)
    (h2 : pt.priceState = 2) (hd : pt.lastPriceRunDate < d) :
    (rotateIfNeeded pt d).today = pt.tomorrow
    ∧ (rotateIfNeeded pt d).tomorrow = (fun _ => 0)
    ∧ (rotateIfNeeded pt d).priceState = 1
    ∧ ∀ d2 : ℤ, rotateIfNeeded (rotateIfNeeded pt d) d2 = rotateIfNeeded pt d := by
  refine ⟨?_, ?_, ?_, ?_⟩ <;> simp [rotateIfNeeded, h2, hd]

/-- Witness for C4 at a concrete table and a next-day date. -/
theorem rotation_shifts_then_noop_witness :
    (rotateIfNeeded rotationSample 1).today = rotationSample.tomorrow
    ∧ (rotateIfNeeded rotationSample 1).tomorrow = (fun _ => 0)
    ∧ (rotateIfNeeded rotationSample 1).priceState = 1
    ∧ rotateIfNeeded (rotateIfNeeded rotationSample 1) 1 = rotateIfNeeded rotationSample 1 := by
  obtain ⟨a, b, c, d⟩ := rotation_shifts_then_noop rotationSample 1 rfl (by decide)
  exact ⟨a, b, c, d 1⟩

/-- C5: the next-hour lookup crosses the day boundary: at hour 23 it yields
`tomorrow[0]` when the table is in state 2 and 0 otherwise (given the
tomorrow-zeroed invariant); at every hour `h < 23` it yields `today[h+1]`. -/
theorem nextHourPrice_day_boundary (pt : PriceTable) (hinv : tomorrowZeroed pt) :
    nextHourPrice pt ⟨23, by omega⟩ =
      (if pt.priceState = 2 then pt.tomorrow 0 else 0)
    ∧ ∀ (h : Fin 24) (hlt : h.val < 23), nextHourPrice pt h = pt.today ⟨h.val + 1, by omega⟩ := by
  constructor
  · by_cases h2 : pt.priceState = 2
    · simp [nextHourPrice, h2]
    · simp [nextHourPrice, h2, hinv h2 0]
  · intro h hlt
    have hne : ¬ h.val = 23 := by omega
    simp [nextHourPrice, hne]

/-- Witness for C5 at a concrete table, at hour 23 and at hour 5. -/
theorem nextHourPrice_day_boundary_witness :
    nextHourPrice boundarySample ⟨23, by decide⟩ =
      (if boundarySample.priceState = 2 then boundarySample.tomorrow 0 else 0)
    ∧ nextHourPrice boundarySample ⟨5, by decide⟩ = boundarySample.today ⟨6, by decide⟩ :=
  ⟨(nextHourPrice_day_boundary boundarySample (fun hne => absurd rfl hne)).1,
   (nextHourPrice_day_boundary boundarySample (fun hne => absurd rfl hne)).2
     ⟨5, by decide⟩ (by decide)⟩

theorem populateStep_foldl_true (es : DayEntries) :
    ∀ r : Fin 24 → ℚ, (es.foldl populateStep (r, true)).2 = true := by
  induction es with
  | nil => intro r; rfl
  | cons e s ih =>
    intro r
    cases e with
    | none => exact ih r
    | some pe => exact ih _

theorem populateStep_foldl_false (es : DayEntries) :
    ∀ acc : (Fin 24 → ℚ) × Bool,
      (es.foldl populateStep acc).2 = false → es.foldl populateStep acc = acc := by
  induction es with
  | nil => intro acc _; rfl
  | cons e s ih =>
    intro acc hf
    rw [List.foldl_cons] at hf ⊢
    cases e with
    | none => exact ih acc hf
    | some pe =>
      exfalso
      have htrue := populateStep_foldl_true s (Function.update acc.1 pe.2 pe.1)
      rw [show populateStep acc (some pe)
          = (Function.update acc.1 pe.2 pe.1, true) from rfl] at hf
      rw [hf] at htrue
      exact Bool.noConfusion htrue

theorem populateDay_not_populated (row : Fin 24 → ℚ) (es : DayEntries)
    (hf : (populateDay row es).2 = false) : (populateDay row es).1 = row := by
  unfold populateDay at hf ⊢
  rw [populateStep_foldl_false es (row, false) hf]

/-- Supporting invariant: under the loop's fetch-trigger condition
(`priceState ≠ 2`), a pass through the fetch block preserves the
tomorrow-zeroed invariant of `nextHourPrice_day_boundary`: the tomorrow row
is only written together with `priceState = 2`. -/
theorem processPriceInfo_preserves_tomorrowZeroed (pt : PriceTable) (now : ℤ)
    (t u : PriceDay) (hst : pt.priceState ≠ 2) (hinv : tomorrowZeroed pt) :
    tomorrowZeroed (processPriceInfo pt now t u).table := by
  have hz : ∀ h : Fin 24, pt.tomorrow h = 0 := hinv hst
  cases hc : classifyDays t u with
  | ingestBoth tl ul =>
    simp only [processPriceInfo, hc, ingestDays]
    intro hs2 h
    by_cases hp : (populateDay pt.tomorrow ul).2
    · simp [hp] at hs2
    · simp only [Bool.not_eq_true] at hp
      simp [populateDay_not_populated _ _ hp, hz h]
  | ingestTodayOnly tl =>
    simp only [processPriceInfo, hc, ingestDays]
    intro _ h
    exact hz h
  | daylightSavings =>
    simp only [processPriceInfo, hc]
    intro _ h
    exact hz h
  | parseFailure =>
    simp only [processPriceInfo, hc]
    exact hinv

/-- C2 counterexample: with a 24-entry today and a 23-entry tomorrow (a
tomorrow-day length ≠ 24), the fetch block is NOT rejected without
mutation — it ingests the today day, overwriting today's row (slot 0 moves
from the stale price 5 to the fresh price 7). -/
theorem ingest_anomalous_tomorrow_mutates_today :
    (processPriceInfo staleTable 3 (.list (dayOfLen 24 7))
        (.list (dayOfLen 23 9))).table.today 0 ≠ staleTable.today 0 := by
  decide

/-- C2 amended: an ingestion call is rejected without touching either row
exactly in the daylight-savings and parse-failure classifications, and (for
a list-shaped today) the daylight-savings rejection happens precisely when
the today day has 23 or 25 entries; when today has 24 entries and tomorrow
is a list of any other length, only the today day is ingested and the
tomorrow row is left untouched. -/
theorem ingest_rejection_amended (pt : PriceTable) (now : ℤ) (t u : PriceDay) :
    (classifyDays t u = .daylightSavings ∨ classifyDays t u = .parseFailure →
      (processPriceInfo pt now t u).table.today = pt.today
      ∧ (processPriceInfo pt now t u).table.tomorrow = pt.tomorrow)
    ∧ (∀ tl : DayEntries, t = .list tl →
        (classifyDays t u = .daylightSavings ↔ tl.length = 23 ∨ tl.length = 25))
    ∧ (∀ (tl ul : DayEntries), t = .list tl → u = .list ul →
        tl.length = 24 → ul.length ≠ 24 →
        (processPriceInfo pt now t u).table.tomorrow = pt.tomorrow) := by
  refine ⟨?_, ?_, ?_⟩
  · rintro (h | h) <;> simp [processPriceInfo, h]
  · rintro tl rfl
    cases u with
    | notList =>
      simp only [classifyDays]
      split_ifs <;> simp_all
    | list ul =>
      simp only [classifyDays]
      split_ifs <;> simp_all
  · rintro tl ul rfl rfl h24 hne
    have hc : classifyDays (.list tl) (.list ul) = .ingestTodayOnly tl := by
      simp only [classifyDays]
      split_ifs <;> simp_all
    simp [processPriceInfo, hc, ingestDays]

/-- Witness for C2's amended statement: a 23-entry today is rejected with
both rows untouched, and a 24-entry today with a 23-entry tomorrow leaves
the tomorrow row untouched. -/
theorem ingest_rejection_amended_witness :
    ((processPriceInfo staleTable 3 (.list (dayOfLen 23 7))
        (.list (dayOfLen 24 9))).table.today = staleTable.today
      ∧ (processPriceInfo staleTable 3 (.list (dayOfLen 23 7))
          (.list (dayOfLen 24 9))).table.tomorrow = staleTable.tomorrow)
    ∧ (processPriceInfo staleTable 3 (.list (dayOfLen 24 7))
        (.list (dayOfLen 23 9))).table.tomorrow = staleTable.tomorrow :=
  ⟨(ingest_rejection_amended staleTable 3 _ _).1 (Or.inl (by decide)),
   (ingest_rejection_amended staleTable 3 _ _).2.2 (dayOfLen 24 7) (dayOfLen 23 9)
     rfl rfl (by decide) (by decide)⟩

/-- C3 counterexample: a today day of length 0 is a day-length anomaly
(≠ 24 where 24 is expected), yet it is NOT handled as the claim states: the
table state stays 1 (not reset to UNINITIALIZED = 0), no backoff sleep
happens, and the daylight-savings log line is not emitted — the code takes
the generic parse-failure `else` branch instead. -/
theorem anomaly_handling_counterexample :
    (processPriceInfo staleTable 3 (.list (dayOfLen 0 9))
        (.list (dayOfLen 24 9))).table.priceState ≠ 0
    ∧ (processPriceInfo staleTable 3 (.list (dayOfLen 0 9))
        (.list (dayOfLen 24 9))).backoffSleep = 0
    ∧ (processPriceInfo staleTable 3 (.list (dayOfLen 0 9))
        (.list (dayOfLen 24 9))).dstLogged = false := by
  decide

/-- C3 amended: the logged / reset-to-UNINITIALIZED / fixed-600 s-backoff
handling applies exactly to the classifications the code recognises as
daylight savings (a today day of 23 or 25 entries); it leaves both rows
untouched.  Other irregular day lengths take the generic parse-failure
branch: no state reset, no backoff, no daylight-savings log, table
unchanged. -/
theorem anomaly_handling_amended (pt : PriceTable) (now : ℤ) (t u : PriceDay) :
    (classifyDays t u = .daylightSavings →
      (processPriceInfo pt now t u).dstLogged = true
      ∧ (processPriceInfo pt now t u).table.priceState = 0
      ∧ (processPriceInfo pt now t u).table.today = pt.today
      ∧ (processPriceInfo pt now t u).table.tomorrow = pt.tomorrow
      ∧ (processPriceInfo pt now t u).backoffSleep = 600)
    ∧ (classifyDays t u = .parseFailure →
      (processPriceInfo pt now t u).table = pt
      ∧ (processPriceInfo pt now t u).backoffSleep = 0
      ∧ (processPriceInfo pt now t u).dstLogged = false) := by
  constructor
  · intro h
    simp [processPriceInfo, h]
  · intro h
    simp [processPriceInfo, h]

/-- Witness for C3's amended statement: a 23-entry today triggers the
600 s daylight-savings backoff with the state reset to 0, and a 0-entry
today triggers neither. -/
theorem anomaly_handling_amended_witness :
    (processPriceInfo staleTable 3 (.list (dayOfLen 23 9))
        (.list (dayOfLen 24 9))).backoffSleep = 600
    ∧ (processPriceInfo staleTable 3 (.list (dayOfLen 23 9))
        (.list (dayOfLen 24 9))).table.priceState = 0
    ∧ (processPriceInfo staleTable 3 (.list (dayOfLen 0 9))
        (.list (dayOfLen 24 9))).backoffSleep = 0 :=
  ⟨((anomaly_handling_amended staleTable 3 (.list (dayOfLen 23 9))
      (.list (dayOfLen 24 9))).1 (by decide)).2.2.2.2,
   ((anomaly_handling_amended staleTable 3 (.list (dayOfLen 23 9))
      (.list (dayOfLen 24 9))).1 (by decide)).2.1,
   ((anomaly_handling_amended staleTable 3 (.list (dayOfLen 0 9))
      (.list (dayOfLen 24 9))).2 (by decide)).2.1⟩

theorem ratFloor_eq_floor (q : ℚ) : q.floor = ⌊q⌋ :=
  (Rat.floor_def' q).trans Rat.floor_def.symm

theorem hourOf_38700_eq : hourOf 38700 = 10 := by
  unfold hourOf
  rw [ratFloor_eq_floor]
  have h : ⌊(38700 : ℚ) / 3600⌋ = 10 := by
    rw [Int.floor_eq_iff]
    norm_num
  rw [h]
  decide

theorem hourOf_40500_eq : hourOf 40500 = 11 := by
  unfold hourOf
  rw [ratFloor_eq_floor]
  have h : ⌊(40500 : ℚ) / 3600⌋ = 11 := by
    rw [Int.floor_eq_iff]
    norm_num
  rw [h]
  decide

theorem floorToHourStart_40500_eq : floorToHourStart 40500 = 39600 := by
  unfold floorToHourStart
  rw [ratFloor_eq_floor]
  have h : ⌊(40500 : ℚ) / 3600⌋ = 11 := by
    rw [Int.floor_eq_iff]
    norm_num
  rw [h]
  norm_num

/-- C6: with a non-sentinel on-time, the power-off session cost follows
exactly the three-case rule on the hour fields of the ON and OFF instants,
and the concrete example ON 10:45 @ 0.40, OFF 11:15 @ 0.60 with a 1250 W
radiator costs 0.3125 (= 5/16). -/
theorem session_cost_three_cases (cfg : Config) (t1 t2 pOn pOff : ℚ)
    (hs : t1 ≠ sentinel) :
    (hourOf t1 = hourOf t2 →
      sessionCostAtOff cfg t1 t2 pOn pOff = estimateCost cfg (t2 - t1) pOff)
    ∧ (hourOf t2 - hourOf t1 = 1 ∨ hourOf t2 - hourOf t1 = -23 →
      sessionCostAtOff cfg t1 t2 pOn pOff =
        estimateCost cfg (floorToHourStart t2 - t1) pOn
          + estimateCost cfg (t2 - floorToHourStart t2) pOff)
    ∧ (hourOf t1 ≠ hourOf t2 →
        ¬(hourOf t2 - hourOf t1 = 1 ∨ hourOf t2 - hourOf t1 = -23) →
      sessionCostAtOff cfg t1 t2 pOn pOff
        = estimateCost cfg (t2 - t1) ((pOn + pOff) / 2))
    ∧ sessionCostAtOff sourceConfig 38700 40500 (2/5) (3/5) = 5/16 := by
  refine ⟨?_, ?_, ?_, ?_⟩
  · intro h
    unfold sessionCostAtOff
    rw [if_pos hs, if_pos h]
  · intro h
    have hne : hourOf t1 ≠ hourOf t2 := by rcases h with h | h <;> omega
    unfold sessionCostAtOff
    rw [if_pos hs, if_neg hne, if_pos h]
  · intro hne h2
    unfold sessionCostAtOff
    rw [if_pos hs, if_neg hne, if_neg h2]
    rw [add_comm pOff pOn]
  · unfold sessionCostAtOff
    rw [if_pos (show (38700 : ℚ) ≠ sentinel by decide), hourOf_38700_eq, hourOf_40500_eq]
    norm_num [estimateCost, sourceConfig, floorToHourStart_40500_eq]

/-- Witness for C6: the boundary-crossing example evaluates to 5/16 SEK. -/
theorem session_cost_three_cases_witness :
    sessionCostAtOff sourceConfig 38700 40500 (2/5) (3/5) = 5/16 :=
  (session_cost_three_cases sourceConfig 38700 40500 (2/5) (3/5) (by decide)).2.2.2

/-- C7: a power-off transition whose `powerOnTime` still holds the epoch
sentinel yields session cost 0, whatever the off instant and prices. -/
theorem sentinel_session_cost_zero (cfg : Config) (t2 pOn pOff : ℚ) :
    sessionCostAtOff cfg sentinel t2 pOn pOff = 0 := by
  simp [sessionCostAtOff]

/-- C10: the two sub-intervals of the hour-boundary split sum exactly to the
full elapsed duration, and with equal on/off price `p` the split cost equals
the single-interval cost `estimateCost(elapsed, p)`. -/
theorem split_sums_to_elapsed_and_equal_prices_coincide (cfg : Config)
    (t1 t2 p : ℚ) (hs : t1 ≠ sentinel)
    (hcross : hourOf t2 - hourOf t1 = 1 ∨ hourOf t2 - hourOf t1 = -23) :
    (floorToHourStart t2 - t1) + (t2 - floorToHourStart t2) = t2 - t1
    ∧ sessionCostAtOff cfg t1 t2 p p = estimateCost cfg (t2 - t1) p := by
  have hne : hourOf t1 ≠ hourOf t2 := by rcases hcross with h | h <;> omega
  constructor
  · ring
  · unfold sessionCostAtOff
    rw [if_pos hs, if_neg hne, if_pos hcross]
    unfold estimateCost
    ring

/-- Witness for C10 at the 10:45 → 11:15 session with price 1/2. -/
theorem split_sums_to_elapsed_and_equal_prices_coincide_witness :
    (floorToHourStart 40500 - 38700) + (40500 - floorToHourStart 40500)
        = (40500 : ℚ) - 38700
    ∧ sessionCostAtOff sourceConfig 38700 40500 (1/2) (1/2)
        = estimateCost sourceConfig (40500 - 38700) (1/2) :=
  split_sums_to_elapsed_and_equal_prices_coincide sourceConfig 38700 40500 (1/2)
    (by decide) (Or.inl (by rw [hourOf_40500_eq, hourOf_38700_eq]; decide))

/-- C8: when the requested power state equals the actuator's current state,
`ensurePowerState` performs no actuator write, leaves every field of the
session object unchanged, and emits no cost report. -/
theorem redundant_directive_is_noop (cfg : Config) (cur state : Bool)
    (s : PowerSession) (price temp now : ℚ) (h : cur = state) :
    ensurePowerState cfg cur state s price temp now = ⟨s, false, none⟩ := by
  simp [ensurePowerState, h]

/-- Witness for C8: requesting ON while the plug is already ON changes
nothing. -/
theorem redundant_directive_is_noop_witness :
    ensurePowerState sourceConfig true true ⟨1, 2, 3, 4, 5, 6⟩ 7 8 9
      = ⟨⟨1, 2, 3, 4, 5, 6⟩, false, none⟩ :=
  redundant_directive_is_noop sourceConfig true true ⟨1, 2, 3, 4, 5, 6⟩ 7 8 9 rfl

theorem getD_zero_of_all_zero (l : List ℚ) (h : ∀ x ∈ l, x = 0) (i : ℕ) :
    l.getD i 0 = 0 := by
  induction l generalizing i with
  | nil => simp
  | cons a t ih =>
    cases i with
    | zero => simpa using h a (by simp)
    | succ j => simpa using ih (fun x hx => h x (by simp [hx])) j

theorem numpyPercentile_all_zero (l : List ℚ) (h : ∀ x ∈ l, x = 0) (p : ℚ) :
    numpyPercentile l p = 0 := by
  have hmem : ∀ x ∈ l.insertionSort (· ≤ ·), x = 0 := fun x hx =>
    h x ((List.perm_insertionSort (· ≤ ·) l).mem_iff.mp hx)
  simp only [numpyPercentile]
  split_ifs with h0
  · rfl
  · rw [getD_zero_of_all_zero _ hmem, getD_zero_of_all_zero _ hmem]
    ring

/-- C9: the decision runs before the fetch block, so the first iteration
after startup evaluates against the all-zero price table: the current
price, next-hour price and both percentiles are 0, the strict price rules
3, 4, 7, 8 cannot fire, and the first directive is decided by temperature
alone with OFF as the comfort-band default. -/
theorem first_iteration_decides_on_temperature_alone (temp : ℚ) (d : ℤ)
    (h : Fin 24) (today tomorrow : PriceDay) :
    priceAt initialPriceTable h = 0
    ∧ nextHourPrice initialPriceTable h = 0
    ∧ numpyPercentile (todayRowList initialPriceTable)
        sourceConfig.lowEnergyPricePercentileThreshold = 0
    ∧ numpyPercentile (todayRowList initialPriceTable)
        sourceConfig.highEnergyPricePercentileThreshold = 0
    ∧ (loopIteration sourceConfig initialPriceTable temp d h today tomorrow).1
        = (if temp < 2 then true else if temp > 10 then false
           else if temp < 4 then true else if temp > 7 then false else false)
    ∧ decideRationale sourceConfig temp 0 0 0 0 ≠ 3
    ∧ decideRationale sourceConfig temp 0 0 0 0 ≠ 4
    ∧ decideRationale sourceConfig temp 0 0 0 0 ≠ 7
    ∧ decideRationale sourceConfig temp 0 0 0 0 ≠ 8 := by
  have hzero : ∀ x ∈ todayRowList initialPriceTable, x = 0 := by
    intro x hx
    simp [todayRowList, initialPriceTable] at hx
    exact hx
  have hlow : numpyPercentile (todayRowList initialPriceTable)
      sourceConfig.lowEnergyPricePercentileThreshold = 0 :=
    numpyPercentile_all_zero _ hzero _
  have hhigh : numpyPercentile (todayRowList initialPriceTable)
      sourceConfig.highEnergyPricePercentileThreshold = 0 :=
    numpyPercentile_all_zero _ hzero _
  have hnext : nextHourPrice initialPriceTable h = 0 := by
    unfold nextHourPrice
    split <;> rfl
  have hrot : rotateIfNeeded initialPriceTable d = initialPriceTable := by
    simp [rotateIfNeeded, initialPriceTable]
  have hr : decideRationale sourceConfig temp 0 0 0 0
      = (if temp < 2 then 1 else if temp > 10 then 2
         else if temp < 4 then 5 else if temp > 7 then 6 else 9) := by
    simp [decideRationale, sourceConfig, lt_self_iff_false]
  refine ⟨rfl, hnext, hlow, hhigh, ?_, ?_, ?_, ?_, ?_⟩
  · show evalDirective sourceConfig (rotateIfNeeded initialPriceTable d) temp h = _
    rw [hrot]
    unfold evalDirective
    rw [hnext, hlow, hhigh]
    show decideDirective sourceConfig temp 0 0 0 0 = _
    simp [decideDirective, sourceConfig, lt_self_iff_false]
  · rw [hr]; split_ifs <;> decide
  · rw [hr]; split_ifs <;> decide
  · rw [hr]; split_ifs <;> decide
  · rw [hr]; split_ifs <;> decide

end PyTempCmdr
